import Mathlib

/-!
Verification development for the `ekstrakt-z-ztmu` extractor: a shallow
embedding of `src/main.rs` (GTFS-realtime feed flattening into dataframes)
together with theorems settling the specification claims.

Modelling conventions:
* Protobuf `f32` values are modelled as `Rat` (the program only copies them
  and substitutes the default `0.0`; no float arithmetic is re-verified).
* Protobuf optional fields (and proto2 required-with-default fields read
  through generated accessors, such as `FeedEntity.id` and
  `Position.latitude`) are `Option` fields; the accessor is `Option.getD`
  with the proto default.
* A polars `DataFrame` is a list of named columns, each a list of optional
  cells (the program builds its columns from plain `Vec`s, so every cell it
  produces is non-null; nullability is kept in the model so that
  `mean_reduce`'s skip-nulls behaviour is representable).
* External collaborators that are not part of this repository's sources —
  the curl-based HTTP transfer inside `fetch_ztm_data`, the generated
  protobuf decoder `FeedMessage::parse_from_bytes`, and polars' CSV reader —
  enter `runMain` as function parameters (`MainDeps`), faithful to their
  contracts in the spec (bytes in, value-or-error out).
-/

namespace ZtmExtract

/-- GTFS-realtime `TripDescriptor` (the fields read by `main.rs`). -/
structure TripDescriptor where
  trip_id : Option String
  route_id : Option String
  start_time : Option String
  start_date : Option String
  deriving DecidableEq, Inhabited

/-- GTFS-realtime `TripUpdate.StopTimeUpdate`; only its count is read. -/
structure StopTimeUpdate where
  deriving DecidableEq, Inhabited

/-- GTFS-realtime `TripUpdate` (the fields read by `main.rs`). -/
structure TripUpdate where
  trip : Option TripDescriptor
  stop_time_update : List StopTimeUpdate
  deriving DecidableEq, Inhabited

/-- GTFS-realtime `VehicleDescriptor` (the fields read by `main.rs`). -/
structure VehicleDescriptor where
  id : Option String
  label : Option String
  deriving DecidableEq, Inhabited

/-- GTFS-realtime `Position`: `latitude`/`longitude` are proto2 required
with default `0.0` (read via accessors), `bearing`/`speed` optional. -/
structure Position where
  latitude : Option Rat
  longitude : Option Rat
  bearing : Option Rat
  speed : Option Rat
  deriving DecidableEq, Inhabited

/-- GTFS-realtime `VehiclePosition` (the fields read by `main.rs`). -/
structure VehiclePosition where
  trip : Option TripDescriptor
  vehicle : Option VehicleDescriptor
  position : Option Position
  deriving DecidableEq, Inhabited

/-- GTFS-realtime `Alert`; only its presence is read. -/
structure Alert where
  deriving DecidableEq, Inhabited

/-- GTFS-realtime `FeedEntity` (the fields read by `main.rs`). -/
structure FeedEntity where
  id : Option String
  trip_update : Option TripUpdate
  vehicle : Option VehiclePosition
  alert : Option Alert
  deriving DecidableEq, Inhabited

/-- GTFS-realtime `FeedMessage`: an ordered sequence of entities. -/
structure FeedMessage where
  entity : List FeedEntity
  deriving DecidableEq, Inhabited

/-- The generated accessor `entity.id()`: field value, or the proto
default `""` when unset. -/
def FeedEntity.idStr (e : FeedEntity) : String :=
  e.id.getD ""

/-- A single dataframe cell (the program materialises strings, booleans,
64-bit integers and 32-bit floats). -/
inductive CellValue where
  | str : String → CellValue
  | bool : Bool → CellValue
  | int : Int → CellValue
  | float : Rat → CellValue
  deriving DecidableEq

/-- A non-null string cell, as produced by `df!` from a `Vec<String>`. -/
def strCell (s : String) : Option CellValue :=
  some (CellValue.str s)

/-- A non-null boolean cell, as produced by `df!` from a `Vec<bool>`. -/
def boolCell (b : Bool) : Option CellValue :=
  some (CellValue.bool b)

/-- A non-null integer cell, as produced by `df!` from a `Vec<i64>`. -/
def intCell (i : Int) : Option CellValue :=
  some (CellValue.int i)

/-- A non-null float cell, as produced by `df!` from a `Vec<f32>`. -/
def floatCell (q : Rat) : Option CellValue :=
  some (CellValue.float q)

/-- A named dataframe column. -/
structure Column where
  name : String
  values : List (Option CellValue)
  deriving DecidableEq

/-- A polars `DataFrame`: ordered named columns. -/
abbrev DataFrame := List Column

/-- Row count of a dataframe (all columns built by this program have equal
length; the first column's length is the height). -/
def DataFrame.height : DataFrame → Nat
  | [] => 0
  | c :: _ => c.values.length

/-- Polars `DataFrame::column(name)`: the named column, or a
`ColumnNotFound`-style error. -/
inductive PolarsError where
  | columnNotFound : String → PolarsError
  | other : String → PolarsError
  deriving DecidableEq

def DataFrame.column (df : DataFrame) (name : String) :
    Except PolarsError Column :=
  match df.find? (fun c => c.name = name) with
  | some c => Except.ok c
  | none => Except.error (PolarsError.columnNotFound name)

/-- The values of the named column (`[]` when the column is absent);
convenience accessor for stating claims. -/
def colValues (df : DataFrame) (name : String) : List (Option CellValue) :=
  match df.find? (fun c => c.name = name) with
  | some c => c.values
  | none => []

/-- Polars `Series::mean_reduce` on a float column: arithmetic mean over
the non-null cells, null (`none`) when there is no non-null cell. -/
def ratOf : Option CellValue → Option Rat
  | some (CellValue.float q) => some q
  | _ => none

def meanReduce (vals : List (Option CellValue)) : Option Rat :=
  let xs := vals.filterMap ratOf
  if xs.length = 0 then none else some (xs.sum / (xs.length : Rat))

/-- The degenerate one-row one-column table built in each feed's
`Err` branch: `df!("error" => [msg])`. -/
def errorDf (msg : String) : DataFrame :=
  [⟨"error", [strCell msg]⟩]

/-! ### The summary flattener (`feeds_df`, main.rs lines 54-79) -/

/-- The four column vectors accumulated by the summary loop. -/
structure SummaryCols where
  entity_ids : List String
  has_trip_update : List Bool
  has_vehicle_position : List Bool
  has_alert : List Bool
  deriving DecidableEq

/-- The `for entity in &feed.entity` loop of the summary flattener:
pushes one element per entity onto each of the four vectors. -/
def summaryLoop : List FeedEntity → SummaryCols
  | [] => ⟨[], [], [], []⟩
  | e :: rest =>
    let c := summaryLoop rest
    ⟨e.idStr :: c.entity_ids,
     e.trip_update.isSome :: c.has_trip_update,
     e.vehicle.isSome :: c.has_vehicle_position,
     e.alert.isSome :: c.has_alert⟩

/-- The `Ok` branch of `feeds_df`: run the summary loop, assemble `df!`. -/
def feedsDfOfFeed (feed : FeedMessage) : DataFrame :=
  let c := summaryLoop feed.entity
  [⟨"entity_id", c.entity_ids.map strCell⟩,
   ⟨"has_trip_update", c.has_trip_update.map boolCell⟩,
   ⟨"has_vehicle_position", c.has_vehicle_position.map boolCell⟩,
   ⟨"has_alert", c.has_alert.map boolCell⟩]

/-! ### The trip-update flattener (`trip_updates_df`, main.rs lines 81-125) -/

/-- `trip_id` pushed for a present `TripUpdate`: from the nested
descriptor when present (`unwrap_or_default`), else `""`. -/
def tripIdOfTU (tu : TripUpdate) : String :=
  match tu.trip with
  | some t => t.trip_id.getD ""
  | none => ""

def routeIdOfTU (tu : TripUpdate) : String :=
  match tu.trip with
  | some t => t.route_id.getD ""
  | none => ""

def startTimeOfTU (tu : TripUpdate) : String :=
  match tu.trip with
  | some t => t.start_time.getD ""
  | none => ""

def startDateOfTU (tu : TripUpdate) : String :=
  match tu.trip with
  | some t => t.start_date.getD ""
  | none => ""

/-- The six column vectors accumulated by the trip-update loop. -/
structure TripUpdateCols where
  entity_ids : List String
  trip_ids : List String
  route_ids : List String
  start_times : List String
  start_dates : List String
  num_stop_updates : List Int
  deriving DecidableEq

/-- The `for entity in &feed.entity` loop of the trip-update flattener:
entities without a `TripUpdate` are skipped entirely; for the others one
element is pushed onto each of the six vectors. -/
def tripUpdatesLoop : List FeedEntity → TripUpdateCols
  | [] => ⟨[], [], [], [], [], []⟩
  | e :: rest =>
    let c := tripUpdatesLoop rest
    match e.trip_update with
    | some tu =>
      ⟨e.idStr :: c.entity_ids,
       tripIdOfTU tu :: c.trip_ids,
       routeIdOfTU tu :: c.route_ids,
       startTimeOfTU tu :: c.start_times,
       startDateOfTU tu :: c.start_dates,
       (tu.stop_time_update.length : Int) :: c.num_stop_updates⟩
    | none => c

/-- The `Ok` branch of `trip_updates_df`. -/
def tripUpdatesDfOfFeed (feed : FeedMessage) : DataFrame :=
  let c := tripUpdatesLoop feed.entity
  [⟨"entity_id", c.entity_ids.map strCell⟩,
   ⟨"trip_id", c.trip_ids.map strCell⟩,
   ⟨"route_id", c.route_ids.map strCell⟩,
   ⟨"start_time", c.start_times.map strCell⟩,
   ⟨"start_date", c.start_dates.map strCell⟩,
   ⟨"num_stop_updates", c.num_stop_updates.map intCell⟩]

/-! ### The vehicle-position flattener (`vehicle_positions_df`,
main.rs lines 127-193) -/

/-- `vehicle_id` pushed for a present `VehiclePosition`: from the
descriptor when present (`unwrap_or_default`), else `""`. -/
def vehIdOf (v : VehiclePosition) : String :=
  match v.vehicle with
  | some d => d.id.getD ""
  | none => ""

def vehLabelOf (v : VehiclePosition) : String :=
  match v.vehicle with
  | some d => d.label.getD ""
  | none => ""

/-- `latitude` pushed: `pos.latitude()` (accessor, default `0.0`) when the
position is present, else the explicit `0.0`. -/
def latOf (v : VehiclePosition) : Rat :=
  match v.position with
  | some p => p.latitude.getD 0
  | none => 0

def lonOf (v : VehiclePosition) : Rat :=
  match v.position with
  | some p => p.longitude.getD 0
  | none => 0

/-- `bearing` pushed: `pos.bearing.unwrap_or(0.0)` when the position is
present, else the explicit `0.0`. -/
def bearingOf (v : VehiclePosition) : Rat :=
  match v.position with
  | some p => p.bearing.getD 0
  | none => 0

def speedOf (v : VehiclePosition) : Rat :=
  match v.position with
  | some p => p.speed.getD 0
  | none => 0

def vTripIdOf (v : VehiclePosition) : String :=
  match v.trip with
  | some t => t.trip_id.getD ""
  | none => ""

def vRouteIdOf (v : VehiclePosition) : String :=
  match v.trip with
  | some t => t.route_id.getD ""
  | none => ""

/-- The nine column vectors accumulated by the vehicle-position loop. -/
structure VehicleCols where
  entity_ids : List String
  vehicle_ids : List String
  vehicle_labels : List String
  latitudes : List Rat
  longitudes : List Rat
  bearings : List Rat
  speeds : List Rat
  trip_ids : List String
  route_ids : List String
  deriving DecidableEq

/-- The `for entity in &feed.entity` loop of the vehicle-position
flattener: entities without a `VehiclePosition` are skipped entirely. -/
def vehicleLoop : List FeedEntity → VehicleCols
  | [] => ⟨[], [], [], [], [], [], [], [], []⟩
  | e :: rest =>
    let c := vehicleLoop rest
    match e.vehicle with
    | some v =>
      ⟨e.idStr :: c.entity_ids,
       vehIdOf v :: c.vehicle_ids,
       vehLabelOf v :: c.vehicle_labels,
       latOf v :: c.latitudes,
       lonOf v :: c.longitudes,
       bearingOf v :: c.bearings,
       speedOf v :: c.speeds,
       vTripIdOf v :: c.trip_ids,
       vRouteIdOf v :: c.route_ids⟩
    | none => c

/-- The `Ok` branch of `vehicle_positions_df`. -/
def vehiclePositionsDfOfFeed (feed : FeedMessage) : DataFrame :=
  let c := vehicleLoop feed.entity
  [⟨"entity_id", c.entity_ids.map strCell⟩,
   ⟨"vehicle_id", c.vehicle_ids.map strCell⟩,
   ⟨"vehicle_label", c.vehicle_labels.map strCell⟩,
   ⟨"latitude", c.latitudes.map floatCell⟩,
   ⟨"longitude", c.longitudes.map floatCell⟩,
   ⟨"bearing", c.bearings.map floatCell⟩,
   ⟨"speed", c.speeds.map floatCell⟩,
   ⟨"trip_id", c.trip_ids.map strCell⟩,
   ⟨"route_id", c.route_ids.map strCell⟩]

/-! ### The main pipeline (main.rs lines 33-246) -/

/-- A `curl::Error` (an error code; opaque to this program). -/
structure CurlError where
  code : Nat
  deriving DecidableEq

/-- A `protobuf::Error` from `FeedMessage::parse_from_bytes` (opaque). -/
structure ParseError where
  msg : String
  deriving DecidableEq

/-- The error type of `main` (`Box<dyn Error>`): a curl failure from the
fetch stage or a polars failure (CSV read, or `column("speed")`). -/
inductive MainError where
  | curl : CurlError → MainError
  | polars : PolarsError → MainError
  deriving DecidableEq

/-- External collaborators of `main`, passed as functions.
Modelled from the spec: the curl transfer inside `fetch_ztm_data`
("GET url → bytes or error"), the generated protobuf decoder
`FeedMessage::parse_from_bytes` (bytes → `FeedMessage` or decode error,
pure and all-or-nothing), and polars' CSV reader are external to
`src/main.rs`, so they enter the model as arbitrary functions satisfying
those contracts. -/
structure MainDeps where
  fetch : String → Except CurlError (List Nat)
  parseFeedMessage : List Nat → Except ParseError FeedMessage
  readCsv : List Nat → Except PolarsError DataFrame

/-- The fixed ordered resource list (main.rs lines 34-39). -/
def files : List String :=
  ["feeds.pb", "trip_updates.pb", "vehicle_positions.pb",
   "vehicle_dictionary.csv"]

/-- The `feeds_df` match: flatten on successful decode, degenerate
`error` table on decode failure. -/
def feedsDf (r : Except ParseError FeedMessage) : DataFrame :=
  match r with
  | Except.ok feed => feedsDfOfFeed feed
  | Except.error _ => errorDf "Failed to parse feeds"

def tripUpdatesDf (r : Except ParseError FeedMessage) : DataFrame :=
  match r with
  | Except.ok feed => tripUpdatesDfOfFeed feed
  | Except.error _ => errorDf "Failed to parse trip updates"

def vehiclePositionsDf (r : Except ParseError FeedMessage) : DataFrame :=
  match r with
  | Except.ok feed => vehiclePositionsDfOfFeed feed
  | Except.error _ => errorDf "Failed to parse vehicle positions"

/-- Everything `main` reports before returning `Ok(())`: the four tables
and the mean of the `speed` column. -/
structure MainOutput where
  vehicle_dictionary_df : DataFrame
  feeds_df : DataFrame
  trip_updates_df : DataFrame
  vehicle_positions_df : DataFrame
  speed_mean : Option Rat
  deriving DecidableEq

/-- `main`: fetch the four resources (order-preserving fail-fast
aggregation of `files.par_iter().map(fetch).collect::<Result<_,_>>()?`),
read the CSV dictionary (`?`), build the three feed tables with per-feed
decode-error isolation, then look up the `speed` column (`?`) and reduce
its mean. `Except.ok` corresponds to exit status 0, `Except.error` to the
non-zero exit of a `main` that returned `Err`. -/
def runMain (deps : MainDeps) : Except MainError MainOutput := do
  let d ← (files.mapM deps.fetch).mapError MainError.curl
  let feeds := d.getD 0 []
  let trip_updates := d.getD 1 []
  let vehicle_positions := d.getD 2 []
  let vehicle_dictionary := d.getD 3 []
  let vehicle_dictionary_df ←
    (deps.readCsv vehicle_dictionary).mapError MainError.polars
  let feeds_df := feedsDf (deps.parseFeedMessage feeds)
  let trip_updates_df := tripUpdatesDf (deps.parseFeedMessage trip_updates)
  let vehicle_positions_df :=
    vehiclePositionsDf (deps.parseFeedMessage vehicle_positions)
  let speedCol ←
    (vehicle_positions_df.column "speed").mapError MainError.polars
  pure ⟨vehicle_dictionary_df, feeds_df, trip_updates_df,
        vehicle_positions_df, meanReduce speedCol.values⟩

/-! ### Closed forms of the three flattener loops -/

/-- The `TripUpdate` of an entity that passed the `is_some` filter
(`unwrap` in the source; the default is never reached under the filter). -/
def tuOf (e : FeedEntity) : TripUpdate :=
  e.trip_update.getD default

/-- The `VehiclePosition` of an entity that passed the `is_some` filter. -/
def vOf (e : FeedEntity) : VehiclePosition :=
  e.vehicle.getD default

theorem summaryLoop_eq (l : List FeedEntity) :
    summaryLoop l =
      ⟨l.map FeedEntity.idStr,
       l.map (fun e => e.trip_update.isSome),
       l.map (fun e => e.vehicle.isSome),
       l.map (fun e => e.alert.isSome)⟩ := by
  induction l with
  | nil => rfl
  | cons e rest ih => simp [summaryLoop, ih]

theorem tripUpdatesLoop_eq (l : List FeedEntity) :
    tripUpdatesLoop l =
      ⟨(l.filter fun e => e.trip_update.isSome).map FeedEntity.idStr,
       (l.filter fun e => e.trip_update.isSome).map
         (fun e => tripIdOfTU (tuOf e)),
       (l.filter fun e => e.trip_update.isSome).map
         (fun e => routeIdOfTU (tuOf e)),
       (l.filter fun e => e.trip_update.isSome).map
         (fun e => startTimeOfTU (tuOf e)),
       (l.filter fun e => e.trip_update.isSome).map
         (fun e => startDateOfTU (tuOf e)),
       (l.filter fun e => e.trip_update.isSome).map
         (fun e => ((tuOf e).stop_time_update.length : Int))⟩ := by
  induction l with
  | nil => rfl
  | cons e rest ih =>
    cases h : e.trip_update with
    | none => simp [tripUpdatesLoop, h, ih, List.filter_cons]
    | some tu => simp [tripUpdatesLoop, h, ih, List.filter_cons, tuOf]

theorem vehicleLoop_eq (l : List FeedEntity) :
    vehicleLoop l =
      ⟨(l.filter fun e => e.vehicle.isSome).map FeedEntity.idStr,
       (l.filter fun e => e.vehicle.isSome).map (fun e => vehIdOf (vOf e)),
       (l.filter fun e => e.vehicle.isSome).map
         (fun e => vehLabelOf (vOf e)),
       (l.filter fun e => e.vehicle.isSome).map (fun e => latOf (vOf e)),
       (l.filter fun e => e.vehicle.isSome).map (fun e => lonOf (vOf e)),
       (l.filter fun e => e.vehicle.isSome).map (fun e => bearingOf (vOf e)),
       (l.filter fun e => e.vehicle.isSome).map (fun e => speedOf (vOf e)),
       (l.filter fun e => e.vehicle.isSome).map (fun e => vTripIdOf (vOf e)),
       (l.filter fun e => e.vehicle.isSome).map
         (fun e => vRouteIdOf (vOf e))⟩ := by
  induction l with
  | nil => rfl
  | cons e rest ih =>
    cases h : e.vehicle with
    | none => simp [vehicleLoop, h, ih, List.filter_cons]
    | some v => simp [vehicleLoop, h, ih, List.filter_cons, vOf]

theorem feedsDfOfFeed_eq (feed : FeedMessage) :
    feedsDfOfFeed feed =
      [⟨"entity_id", feed.entity.map (fun e => strCell e.idStr)⟩,
       ⟨"has_trip_update",
        feed.entity.map (fun e => boolCell e.trip_update.isSome)⟩,
       ⟨"has_vehicle_position",
        feed.entity.map (fun e => boolCell e.vehicle.isSome)⟩,
       ⟨"has_alert", feed.entity.map (fun e => boolCell e.alert.isSome)⟩] := by
  simp [feedsDfOfFeed, summaryLoop_eq, List.map_map, Function.comp]

theorem tripUpdatesDfOfFeed_eq (feed : FeedMessage) :
    tripUpdatesDfOfFeed feed =
      [⟨"entity_id",
        (feed.entity.filter fun e => e.trip_update.isSome).map
          (fun e => strCell e.idStr)⟩,
       ⟨"trip_id",
        (feed.entity.filter fun e => e.trip_update.isSome).map
          (fun e => strCell (tripIdOfTU (tuOf e)))⟩,
       ⟨"route_id",
        (feed.entity.filter fun e => e.trip_update.isSome).map
          (fun e => strCell (routeIdOfTU (tuOf e)))⟩,
       ⟨"start_time",
        (feed.entity.filter fun e => e.trip_update.isSome).map
          (fun e => strCell (startTimeOfTU (tuOf e)))⟩,
       ⟨"start_date",
        (feed.entity.filter fun e => e.trip_update.isSome).map
          (fun e => strCell (startDateOfTU (tuOf e)))⟩,
       ⟨"num_stop_updates",
        (feed.entity.filter fun e => e.trip_update.isSome).map
          (fun e => intCell ((tuOf e).stop_time_update.length : Int))⟩] := by
  simp [tripUpdatesDfOfFeed, tripUpdatesLoop_eq, List.map_map, Function.comp]

theorem vehiclePositionsDfOfFeed_eq (feed : FeedMessage) :
    vehiclePositionsDfOfFeed feed =
      [⟨"entity_id",
        (feed.entity.filter fun e => e.vehicle.isSome).map
          (fun e => strCell e.idStr)⟩,
       ⟨"vehicle_id",
        (feed.entity.filter fun e => e.vehicle.isSome).map
          (fun e => strCell (vehIdOf (vOf e)))⟩,
       ⟨"vehicle_label",
        (feed.entity.filter fun e => e.vehicle.isSome).map
          (fun e => strCell (vehLabelOf (vOf e)))⟩,
       ⟨"latitude",
        (feed.entity.filter fun e => e.vehicle.isSome).map
          (fun e => floatCell (latOf (vOf e)))⟩,
       ⟨"longitude",
        (feed.entity.filter fun e => e.vehicle.isSome).map
          (fun e => floatCell (lonOf (vOf e)))⟩,
       ⟨"bearing",
        (feed.entity.filter fun e => e.vehicle.isSome).map
          (fun e => floatCell (bearingOf (vOf e)))⟩,
       ⟨"speed",
        (feed.entity.filter fun e => e.vehicle.isSome).map
          (fun e => floatCell (speedOf (vOf e)))⟩,
       ⟨"trip_id",
        (feed.entity.filter fun e => e.vehicle.isSome).map
          (fun e => strCell (vTripIdOf (vOf e)))⟩,
       ⟨"route_id",
        (feed.entity.filter fun e => e.vehicle.isSome).map
          (fun e => strCell (vRouteIdOf (vOf e)))⟩] := by
  simp [vehiclePositionsDfOfFeed, vehicleLoop_eq, List.map_map,
    Function.comp]

/-! ### Claim theorems -/

/-- Claim C2: for every successfully decoded feed, the summary flattener
emits exactly one row per entity (height equals the entity count), and the
table's columns are `entity_id` (the entity's id, `""` when absent) and
the three boolean presence flags `has_trip_update`, `has_vehicle_position`,
`has_alert`, each row taken from the corresponding entity. -/
theorem claim2_summary_flattener (feed : FeedMessage) :
    (feedsDfOfFeed feed).height = feed.entity.length ∧
    feedsDfOfFeed feed =
      [⟨"entity_id", feed.entity.map (fun e => strCell (e.id.getD ""))⟩,
       ⟨"has_trip_update",
        feed.entity.map (fun e => boolCell e.trip_update.isSome)⟩,
       ⟨"has_vehicle_position",
        feed.entity.map (fun e => boolCell e.vehicle.isSome)⟩,
       ⟨"has_alert",
        feed.entity.map (fun e => boolCell e.alert.isSome)⟩] := by
  refine ⟨?_, feedsDfOfFeed_eq feed⟩
  rw [feedsDfOfFeed_eq]
  simp [DataFrame.height]

/-- Claim C3: the trip-update flattener emits a row exactly for the
entities whose `TripUpdate` is present — its height equals the number of
such entities, so entities lacking one contribute zero rows. -/
theorem claim3_trip_update_row_count (feed : FeedMessage) :
    (tripUpdatesDfOfFeed feed).height =
      (feed.entity.filter fun e => e.trip_update.isSome).length := by
  rw [tripUpdatesDfOfFeed_eq]
  simp [DataFrame.height]

/-- Entity A of the three-entity scenario: only a `TripUpdate`. -/
def entA : FeedEntity :=
  ⟨some "A", some ⟨none, []⟩, none, none⟩

/-- Entity B of the three-entity scenario: only a `VehiclePosition`. -/
def entB : FeedEntity :=
  ⟨some "B", none, some ⟨none, none, none⟩, none⟩

/-- Entity C of the three-entity scenario: both payload variants. -/
def entC : FeedEntity :=
  ⟨some "C", some ⟨none, []⟩, some ⟨none, none, none⟩, none⟩

/-- The three-entity scenario feed. -/
def feedABC : FeedMessage :=
  ⟨[entA, entB, entC]⟩

/-- Claim C7: on the three-entity feed (A only TripUpdate, B only
VehiclePosition, C both), the summary table has 3 rows, the trip-update
table 2 rows (A, C) and the vehicle-position table 2 rows (B, C); the
entity carrying both variants appears in both specialised tables. -/
theorem claim7_three_entity_scenario :
    (feedsDfOfFeed feedABC).height = 3 ∧
    (tripUpdatesDfOfFeed feedABC).height = 2 ∧
    (vehiclePositionsDfOfFeed feedABC).height = 2 ∧
    colValues (tripUpdatesDfOfFeed feedABC) "entity_id" =
      [strCell "A", strCell "C"] ∧
    colValues (vehiclePositionsDfOfFeed feedABC) "entity_id" =
      [strCell "B", strCell "C"] :=
  ⟨rfl, rfl, rfl, rfl, rfl⟩

/-- Claim C9 (implicit): every flattener preserves feed order — each
column of each table is the in-order image of the feed's entity sequence
(summary) or of its filtered subsequence (trip updates, vehicle
positions), so row `i` comes from the `i`-th matching entity and
duplicate entity ids pass through as distinct rows. -/
theorem claim9_order_preservation (feed : FeedMessage) :
    colValues (feedsDfOfFeed feed) "entity_id" =
      feed.entity.map (fun e => strCell (e.id.getD "")) ∧
    tripUpdatesDfOfFeed feed =
      [⟨"entity_id",
        (feed.entity.filter fun e => e.trip_update.isSome).map
          (fun e => strCell (e.id.getD ""))⟩,
       ⟨"trip_id",
        (feed.entity.filter fun e => e.trip_update.isSome).map
          (fun e => strCell (tripIdOfTU (tuOf e)))⟩,
       ⟨"route_id",
        (feed.entity.filter fun e => e.trip_update.isSome).map
          (fun e => strCell (routeIdOfTU (tuOf e)))⟩,
       ⟨"start_time",
        (feed.entity.filter fun e => e.trip_update.isSome).map
          (fun e => strCell (startTimeOfTU (tuOf e)))⟩,
       ⟨"start_date",
        (feed.entity.filter fun e => e.trip_update.isSome).map
          (fun e => strCell (startDateOfTU (tuOf e)))⟩,
       ⟨"num_stop_updates",
        (feed.entity.filter fun e => e.trip_update.isSome).map
          (fun e => intCell ((tuOf e).stop_time_update.length : Int))⟩] ∧
    vehiclePositionsDfOfFeed feed =
      [⟨"entity_id",
        (feed.entity.filter fun e => e.vehicle.isSome).map
          (fun e => strCell (e.id.getD ""))⟩,
       ⟨"vehicle_id",
        (feed.entity.filter fun e => e.vehicle.isSome).map
          (fun e => strCell (vehIdOf (vOf e)))⟩,
       ⟨"vehicle_label",
        (feed.entity.filter fun e => e.vehicle.isSome).map
          (fun e => strCell (vehLabelOf (vOf e)))⟩,
       ⟨"latitude",
        (feed.entity.filter fun e => e.vehicle.isSome).map
          (fun e => floatCell (latOf (vOf e)))⟩,
       ⟨"longitude",
        (feed.entity.filter fun e => e.vehicle.isSome).map
          (fun e => floatCell (lonOf (vOf e)))⟩,
       ⟨"bearing",
        (feed.entity.filter fun e => e.vehicle.isSome).map
          (fun e => floatCell (bearingOf (vOf e)))⟩,
       ⟨"speed",
        (feed.entity.filter fun e => e.vehicle.isSome).map
          (fun e => floatCell (speedOf (vOf e)))⟩,
       ⟨"trip_id",
        (feed.entity.filter fun e => e.vehicle.isSome).map
          (fun e => strCell (vTripIdOf (vOf e)))⟩,
       ⟨"route_id",
        (feed.entity.filter fun e => e.vehicle.isSome).map
          (fun e => strCell (vRouteIdOf (vOf e)))⟩] := by
  refine ⟨?_, tripUpdatesDfOfFeed_eq feed, vehiclePositionsDfOfFeed_eq feed⟩
  rw [feedsDfOfFeed_eq]
  rfl

/-- Extracting the rationals back out of a float-cell column recovers
every value: `df!` from a `Vec<f32>` introduces no nulls. -/
theorem filterMap_ratOf_float {α : Type} (g : α → Rat) (l : List α) :
    (l.map fun a => floatCell (g a)).filterMap ratOf = l.map g := by
  induction l with
  | nil => rfl
  | cons a l ih =>
    rw [List.map_cons, List.filterMap_cons,
      show ratOf (floatCell (g a)) = some (g a) from rfl, ih]
    rfl

/-- `mean_reduce` on a column built from a `Vec<f32>` of values `g a`:
the arithmetic mean over all rows (none when there are no rows). -/
theorem meanReduce_float {α : Type} (g : α → Rat) (l : List α) :
    meanReduce (l.map fun a => floatCell (g a)) =
      if l.length = 0 then none
      else some ((l.map g).sum / (l.length : Rat)) := by
  simp only [meanReduce, filterMap_ratOf_float, List.length_map]

/-- Claim C10 (implicit): the `speed` column of a successfully built
vehicle-position table has no missing value (absent speeds are
materialised as `0.0` by `speedOf` at flatten time), so `mean_reduce`'s
mean over non-null cells is the arithmetic mean over all emitted rows,
the substituted `0.0` defaults included. -/
theorem claim10_speed_mean_over_all_rows (feed : FeedMessage) :
    ((colValues (vehiclePositionsDfOfFeed feed) "speed").all
      Option.isSome) = true ∧
    meanReduce (colValues (vehiclePositionsDfOfFeed feed) "speed") =
      (if (feed.entity.filter fun e => e.vehicle.isSome).length = 0 then
        none
       else
        some
          (((feed.entity.filter fun e => e.vehicle.isSome).map
              (fun e => speedOf (vOf e))).sum /
            ((feed.entity.filter fun e => e.vehicle.isSome).length :
              Rat))) := by
  have hcol : colValues (vehiclePositionsDfOfFeed feed) "speed" =
      (feed.entity.filter fun e => e.vehicle.isSome).map
        (fun e => floatCell (speedOf (vOf e))) := by
    rw [vehiclePositionsDfOfFeed_eq]
    rfl
  constructor
  · rw [hcol]
    rw [List.all_eq_true]
    intro x hx
    rcases List.mem_map.mp hx with ⟨e, -, he⟩
    rw [← he]
    rfl
  · rw [hcol]
    exact meanReduce_float _ _

/-- Claim C4: in every emitted trip-update row, when the nested
`TripDescriptor` is absent the four descriptor-derived columns all equal
`""` and `num_stop_updates` equals the stop-time-update count (possibly
zero); when it is present, each of the four fields is the descriptor's
value when set, else independently defaults to `""`. -/
theorem claim4_trip_descriptor_defaults (feed : FeedMessage) (i : Nat)
    (e : FeedEntity) (tu : TripUpdate)
    (hget : (feed.entity.filter fun x => x.trip_update.isSome)[i]? = some e)
    (htu : e.trip_update = some tu) :
    (colValues (tripUpdatesDfOfFeed feed) "num_stop_updates")[i]? =
      some (intCell (tu.stop_time_update.length : Int)) ∧
    (tu.trip = none →
      (colValues (tripUpdatesDfOfFeed feed) "trip_id")[i]? =
        some (strCell "") ∧
      (colValues (tripUpdatesDfOfFeed feed) "route_id")[i]? =
        some (strCell "") ∧
      (colValues (tripUpdatesDfOfFeed feed) "start_time")[i]? =
        some (strCell "") ∧
      (colValues (tripUpdatesDfOfFeed feed) "start_date")[i]? =
        some (strCell "")) ∧
    (∀ td : TripDescriptor, tu.trip = some td →
      (colValues (tripUpdatesDfOfFeed feed) "trip_id")[i]? =
        some (strCell (td.trip_id.getD "")) ∧
      (colValues (tripUpdatesDfOfFeed feed) "route_id")[i]? =
        some (strCell (td.route_id.getD "")) ∧
      (colValues (tripUpdatesDfOfFeed feed) "start_time")[i]? =
        some (strCell (td.start_time.getD "")) ∧
      (colValues (tripUpdatesDfOfFeed feed) "start_date")[i]? =
        some (strCell (td.start_date.getD ""))) := by
  have htuOf : tuOf e = tu := by rw [tuOf, htu]; rfl
  have key : ∀ (name : String) (f : FeedEntity → Option CellValue),
      colValues (tripUpdatesDfOfFeed feed) name =
        (feed.entity.filter fun x => x.trip_update.isSome).map f →
      (colValues (tripUpdatesDfOfFeed feed) name)[i]? = some (f e) := by
    intro name f hcol
    rw [hcol, List.getElem?_map, hget, Option.map_some']
  have hn := key "num_stop_updates"
    (fun x => intCell ((tuOf x).stop_time_update.length : Int))
    (by rw [tripUpdatesDfOfFeed_eq]; rfl)
  have ht := key "trip_id" (fun x => strCell (tripIdOfTU (tuOf x)))
    (by rw [tripUpdatesDfOfFeed_eq]; rfl)
  have hr := key "route_id" (fun x => strCell (routeIdOfTU (tuOf x)))
    (by rw [tripUpdatesDfOfFeed_eq]; rfl)
  have hst := key "start_time" (fun x => strCell (startTimeOfTU (tuOf x)))
    (by rw [tripUpdatesDfOfFeed_eq]; rfl)
  have hsd := key "start_date" (fun x => strCell (startDateOfTU (tuOf x)))
    (by rw [tripUpdatesDfOfFeed_eq]; rfl)
  simp only [htuOf] at hn ht hr hst hsd
  refine ⟨hn, fun h0 => ?_, fun td htd => ?_⟩
  · rw [ht, hr, hst, hsd]
    simp [tripIdOfTU, routeIdOfTU, startTimeOfTU, startDateOfTU, h0]
  · rw [ht, hr, hst, hsd]
    simp [tripIdOfTU, routeIdOfTU, startTimeOfTU, startDateOfTU, htd]

/-- A trip-update entity with an absent `TripDescriptor` and two
stop-time updates. -/
def entD : FeedEntity :=
  ⟨some "D", some ⟨none, [⟨⟩, ⟨⟩]⟩, none, none⟩

/-- The single-entity feed around `entD`. -/
def feedD : FeedMessage :=
  ⟨[entD]⟩

/-- Witness for C4 at a concrete feed: `entD`'s row carries `""` in the
descriptor columns and `2` in `num_stop_updates`. -/
theorem claim4_trip_descriptor_defaults_witness :
    (colValues (tripUpdatesDfOfFeed feedD) "trip_id")[0]? =
      some (strCell "") ∧
    (colValues (tripUpdatesDfOfFeed feedD) "start_date")[0]? =
      some (strCell "") ∧
    (colValues (tripUpdatesDfOfFeed feedD) "num_stop_updates")[0]? =
      some (intCell 2) := by
  have h := claim4_trip_descriptor_defaults feedD 0 entD ⟨none, [⟨⟩, ⟨⟩]⟩
    rfl rfl
  exact ⟨(h.2.1 rfl).1, (h.2.1 rfl).2.2.2, h.1⟩

/-- Claim C5: in every emitted vehicle-position row: an absent
`VehicleDescriptor` yields `""` for `vehicle_id`/`vehicle_label` (a
present one yields each field or `""` when unset); an absent `Position`
yields `0.0` for `latitude`/`longitude`/`bearing`/`speed`, while inside a
present `Position` unset latitude/longitude give the built-in default
`0.0` and unset bearing/speed give `0.0`; an absent nested
`TripDescriptor` yields `""` for `trip_id`/`route_id` (a present one each
field or `""`). -/
theorem claim5_vehicle_position_defaults (feed : FeedMessage) (i : Nat)
    (e : FeedEntity) (v : VehiclePosition)
    (hget : (feed.entity.filter fun x => x.vehicle.isSome)[i]? = some e)
    (hv : e.vehicle = some v) :
    (v.vehicle = none →
      (colValues (vehiclePositionsDfOfFeed feed) "vehicle_id")[i]? =
        some (strCell "") ∧
      (colValues (vehiclePositionsDfOfFeed feed) "vehicle_label")[i]? =
        some (strCell "")) ∧
    (∀ vd : VehicleDescriptor, v.vehicle = some vd →
      (colValues (vehiclePositionsDfOfFeed feed) "vehicle_id")[i]? =
        some (strCell (vd.id.getD "")) ∧
      (colValues (vehiclePositionsDfOfFeed feed) "vehicle_label")[i]? =
        some (strCell (vd.label.getD ""))) ∧
    (v.position = none →
      (colValues (vehiclePositionsDfOfFeed feed) "latitude")[i]? =
        some (floatCell 0) ∧
      (colValues (vehiclePositionsDfOfFeed feed) "longitude")[i]? =
        some (floatCell 0) ∧
      (colValues (vehiclePositionsDfOfFeed feed) "bearing")[i]? =
        some (floatCell 0) ∧
      (colValues (vehiclePositionsDfOfFeed feed) "speed")[i]? =
        some (floatCell 0)) ∧
    (∀ p : Position, v.position = some p →
      (colValues (vehiclePositionsDfOfFeed feed) "latitude")[i]? =
        some (floatCell (p.latitude.getD 0)) ∧
      (colValues (vehiclePositionsDfOfFeed feed) "longitude")[i]? =
        some (floatCell (p.longitude.getD 0)) ∧
      (colValues (vehiclePositionsDfOfFeed feed) "bearing")[i]? =
        some (floatCell (p.bearing.getD 0)) ∧
      (colValues (vehiclePositionsDfOfFeed feed) "speed")[i]? =
        some (floatCell (p.speed.getD 0))) ∧
    (v.trip = none →
      (colValues (vehiclePositionsDfOfFeed feed) "trip_id")[i]? =
        some (strCell "") ∧
      (colValues (vehiclePositionsDfOfFeed feed) "route_id")[i]? =
        some (strCell "")) ∧
    (∀ td : TripDescriptor, v.trip = some td →
      (colValues (vehiclePositionsDfOfFeed feed) "trip_id")[i]? =
        some (strCell (td.trip_id.getD "")) ∧
      (colValues (vehiclePositionsDfOfFeed feed) "route_id")[i]? =
        some (strCell (td.route_id.getD ""))) := by
  have hvOf : vOf e = v := by rw [vOf, hv]; rfl
  have key : ∀ (name : String) (f : FeedEntity → Option CellValue),
      colValues (vehiclePositionsDfOfFeed feed) name =
        (feed.entity.filter fun x => x.vehicle.isSome).map f →
      (colValues (vehiclePositionsDfOfFeed feed) name)[i]? = some (f e) := by
    intro name f hcol
    rw [hcol, List.getElem?_map, hget, Option.map_some']
  have hvi := key "vehicle_id" (fun x => strCell (vehIdOf (vOf x)))
    (by rw [vehiclePositionsDfOfFeed_eq]; rfl)
  have hvl := key "vehicle_label" (fun x => strCell (vehLabelOf (vOf x)))
    (by rw [vehiclePositionsDfOfFeed_eq]; rfl)
  have hla := key "latitude" (fun x => floatCell (latOf (vOf x)))
    (by rw [vehiclePositionsDfOfFeed_eq]; rfl)
  have hlo := key "longitude" (fun x => floatCell (lonOf (vOf x)))
    (by rw [vehiclePositionsDfOfFeed_eq]; rfl)
  have hbe := key "bearing" (fun x => floatCell (bearingOf (vOf x)))
    (by rw [vehiclePositionsDfOfFeed_eq]; rfl)
  have hsp := key "speed" (fun x => floatCell (speedOf (vOf x)))
    (by rw [vehiclePositionsDfOfFeed_eq]; rfl)
  have hti := key "trip_id" (fun x => strCell (vTripIdOf (vOf x)))
    (by rw [vehiclePositionsDfOfFeed_eq]; rfl)
  have hri := key "route_id" (fun x => strCell (vRouteIdOf (vOf x)))
    (by rw [vehiclePositionsDfOfFeed_eq]; rfl)
  simp only [hvOf] at hvi hvl hla hlo hbe hsp hti hri
  refine ⟨fun h0 => ?_, fun vd hvd => ?_, fun h0 => ?_, fun p hp => ?_,
    fun h0 => ?_, fun td htd => ?_⟩
  · rw [hvi, hvl]
    simp [vehIdOf, vehLabelOf, h0]
  · rw [hvi, hvl]
    simp [vehIdOf, vehLabelOf, hvd]
  · rw [hla, hlo, hbe, hsp]
    simp [latOf, lonOf, bearingOf, speedOf, h0]
  · rw [hla, hlo, hbe, hsp]
    simp [latOf, lonOf, bearingOf, speedOf, hp]
  · rw [hti, hri]
    simp [vTripIdOf, vRouteIdOf, h0]
  · rw [hti, hri]
    simp [vTripIdOf, vRouteIdOf, htd]

/-- A vehicle-position entity whose descriptor, position and trip are all
absent. -/
def entE : FeedEntity :=
  ⟨some "E", none, some ⟨none, none, none⟩, none⟩

/-- The single-entity feed around `entE`. -/
def feedE : FeedMessage :=
  ⟨[entE]⟩

/-- Witness for C5 at a concrete feed: `entE`'s row carries `""` in the
descriptor columns and `0.0` in all four kinematic columns. -/
theorem claim5_vehicle_position_defaults_witness :
    (colValues (vehiclePositionsDfOfFeed feedE) "vehicle_id")[0]? =
      some (strCell "") ∧
    (colValues (vehiclePositionsDfOfFeed feedE) "latitude")[0]? =
      some (floatCell 0) ∧
    (colValues (vehiclePositionsDfOfFeed feedE) "speed")[0]? =
      some (floatCell 0) ∧
    (colValues (vehiclePositionsDfOfFeed feedE) "trip_id")[0]? =
      some (strCell "") := by
  have h := claim5_vehicle_position_defaults feedE 0 entE ⟨none, none, none⟩
    rfl rfl
  exact ⟨(h.1 rfl).1, (h.2.2.1 rfl).1, (h.2.2.1 rfl).2.2.2,
    (h.2.2.2.2.1 rfl).1⟩

/-! ### Concrete pipeline dependencies for the end-to-end claims -/

/-- A concrete decoder: the bytes `[9]` are malformed, anything else
decodes to the empty feed. -/
def exParse : List Nat → Except ParseError FeedMessage :=
  fun b => if b = [9] then Except.error ⟨"malformed"⟩ else Except.ok ⟨[]⟩

/-- A concrete fetcher: the named resource returns the malformed bytes
`[9]`; every other resource returns its own well-formed bytes. -/
def exFetchBad (bad : String) : String → Except CurlError (List Nat) :=
  fun f =>
    if f = bad then Except.ok [9]
    else if f = "feeds.pb" then Except.ok [0]
    else if f = "trip_updates.pb" then Except.ok [1]
    else if f = "vehicle_positions.pb" then Except.ok [2]
    else Except.ok [3]

/-- Pipeline dependencies where exactly the named feed's bytes are
malformed (name a non-resource to make every fetch well-formed). -/
def depsBad (bad : String) : MainDeps :=
  ⟨exFetchBad bad, exParse, fun _ => Except.ok [⟨"vehicle", []⟩]⟩

/-- Pipeline dependencies whose every fetch fails with curl error 7. -/
def depsFetchFail : MainDeps :=
  ⟨fun _ => Except.error ⟨7⟩, exParse, fun _ => Except.ok [⟨"vehicle", []⟩]⟩

/-- Pipeline dependencies where the fetches succeed but the CSV
dictionary fails to parse. -/
def depsBadCsv : MainDeps :=
  ⟨exFetchBad "x", exParse, fun _ => Except.error (PolarsError.other "csv")⟩

/-- Claim C1 evaluated on the code: when the summary or trip-updates
bytes are malformed, the run does recover — it exits successfully with
that table replaced by the degenerate `error` table and the other tables
decoded normally. But when the vehicle-positions bytes are malformed, the
degenerate table has no `speed` column, so the unconditional
`vehicle_positions_df.column("speed")?` fails and `main` returns an error
(non-zero exit): the decode error does abort that run, contradicting the
claim's "never aborted ... including the vehicle-positions feed". -/
theorem claim1_decode_isolation_eval :
    runMain (depsBad "feeds.pb") =
      Except.ok ⟨[⟨"vehicle", []⟩], errorDf "Failed to parse feeds",
        tripUpdatesDfOfFeed ⟨[]⟩, vehiclePositionsDfOfFeed ⟨[]⟩, none⟩ ∧
    runMain (depsBad "trip_updates.pb") =
      Except.ok ⟨[⟨"vehicle", []⟩], feedsDfOfFeed ⟨[]⟩,
        errorDf "Failed to parse trip updates",
        vehiclePositionsDfOfFeed ⟨[]⟩, none⟩ ∧
    runMain (depsBad "vehicle_positions.pb") =
      Except.error (MainError.polars (PolarsError.columnNotFound "speed")) :=
  ⟨rfl, rfl, rfl⟩

/-- The fetch aggregation on an all-success run: the payloads come back
index-aligned with `files`. -/
theorem files_mapM_ok (deps : MainDeps) (b0 b1 b2 b3 : List Nat)
    (h0 : deps.fetch "feeds.pb" = Except.ok b0)
    (h1 : deps.fetch "trip_updates.pb" = Except.ok b1)
    (h2 : deps.fetch "vehicle_positions.pb" = Except.ok b2)
    (h3 : deps.fetch "vehicle_dictionary.csv" = Except.ok b3) :
    files.mapM deps.fetch = Except.ok [b0, b1, b2, b3] := by
  simp only [files, List.mapM_cons, List.mapM_nil]
  rw [h0, h1, h2, h3]
  rfl

/-- Claim C6: the fetch stage is all-or-nothing — if every retrieval
succeeds the result is the byte payloads index-aligned with the fixed
resource order, and if some retrieval fails (all earlier ones having
succeeded) the aggregation returns that first error, `main` returns an
error, no output is produced and the process exits non-zero. -/
theorem claim6_fetch_all_or_nothing (deps : MainDeps)
    (b0 b1 b2 b3 : List Nat) (e : CurlError) :
    (deps.fetch "feeds.pb" = Except.ok b0 →
     deps.fetch "trip_updates.pb" = Except.ok b1 →
     deps.fetch "vehicle_positions.pb" = Except.ok b2 →
     deps.fetch "vehicle_dictionary.csv" = Except.ok b3 →
     files.mapM deps.fetch = Except.ok [b0, b1, b2, b3]) ∧
    (deps.fetch "feeds.pb" = Except.error e →
     files.mapM deps.fetch = Except.error e ∧
     runMain deps = Except.error (MainError.curl e)) ∧
    (deps.fetch "feeds.pb" = Except.ok b0 →
     deps.fetch "trip_updates.pb" = Except.error e →
     files.mapM deps.fetch = Except.error e ∧
     runMain deps = Except.error (MainError.curl e)) ∧
    (deps.fetch "feeds.pb" = Except.ok b0 →
     deps.fetch "trip_updates.pb" = Except.ok b1 →
     deps.fetch "vehicle_positions.pb" = Except.error e →
     files.mapM deps.fetch = Except.error e ∧
     runMain deps = Except.error (MainError.curl e)) ∧
    (deps.fetch "feeds.pb" = Except.ok b0 →
     deps.fetch "trip_updates.pb" = Except.ok b1 →
     deps.fetch "vehicle_positions.pb" = Except.ok b2 →
     deps.fetch "vehicle_dictionary.csv" = Except.error e →
     files.mapM deps.fetch = Except.error e ∧
     runMain deps = Except.error (MainError.curl e)) := by
  have run_err : files.mapM deps.fetch = Except.error e →
      runMain deps = Except.error (MainError.curl e) := by
    intro hm
    unfold runMain
    rw [hm]
    rfl
  refine ⟨files_mapM_ok deps b0 b1 b2 b3, ?_, ?_, ?_, ?_⟩
  · intro h0
    have hm : files.mapM deps.fetch = Except.error e := by
      simp only [files, List.mapM_cons, List.mapM_nil]
      rw [h0]
      rfl
    exact ⟨hm, run_err hm⟩
  · intro h0 h1
    have hm : files.mapM deps.fetch = Except.error e := by
      simp only [files, List.mapM_cons, List.mapM_nil]
      rw [h0, h1]
      rfl
    exact ⟨hm, run_err hm⟩
  · intro h0 h1 h2
    have hm : files.mapM deps.fetch = Except.error e := by
      simp only [files, List.mapM_cons, List.mapM_nil]
      rw [h0, h1, h2]
      rfl
    exact ⟨hm, run_err hm⟩
  · intro h0 h1 h2 h3
    have hm : files.mapM deps.fetch = Except.error e := by
      simp only [files, List.mapM_cons, List.mapM_nil]
      rw [h0, h1, h2, h3]
      rfl
    exact ⟨hm, run_err hm⟩

/-- Witness for C6 at concrete dependencies: an all-failing fetch aborts
the run with its curl error, and an all-succeeding fetch returns the four
payloads in resource order. -/
theorem claim6_fetch_all_or_nothing_witness :
    files.mapM depsFetchFail.fetch = Except.error ⟨7⟩ ∧
    runMain depsFetchFail = Except.error (MainError.curl ⟨7⟩) ∧
    files.mapM (depsBad "x").fetch = Except.ok [[0], [1], [2], [3]] := by
  refine ⟨?_, ?_, ?_⟩
  · exact ((claim6_fetch_all_or_nothing depsFetchFail [] [] [] [] ⟨7⟩).2.1
      rfl).1
  · exact ((claim6_fetch_all_or_nothing depsFetchFail [] [] [] [] ⟨7⟩).2.1
      rfl).2
  · exact (claim6_fetch_all_or_nothing (depsBad "x") [0] [1] [2] [3]
      ⟨7⟩).1 rfl rfl rfl rfl

/-- Claim C8: a Dictionary Loader failure is not caught — with all four
fetches succeeding, a CSV parse error propagates fatally: `main` returns
that error (non-zero exit, printed diagnostic) and no output tables are
produced. -/
theorem claim8_dictionary_failure_fatal (deps : MainDeps)
    (b0 b1 b2 b3 : List Nat) (e : PolarsError)
    (h0 : deps.fetch "feeds.pb" = Except.ok b0)
    (h1 : deps.fetch "trip_updates.pb" = Except.ok b1)
    (h2 : deps.fetch "vehicle_positions.pb" = Except.ok b2)
    (h3 : deps.fetch "vehicle_dictionary.csv" = Except.ok b3)
    (hcsv : deps.readCsv b3 = Except.error e) :
    runMain deps = Except.error (MainError.polars e) := by
  have hm := files_mapM_ok deps b0 b1 b2 b3 h0 h1 h2 h3
  unfold runMain
  rw [hm]
  show (deps.readCsv b3).mapError MainError.polars >>= _ = _
  rw [hcsv]
  rfl

/-- Witness for C8 at concrete dependencies: the run aborts with the CSV
error. -/
theorem claim8_dictionary_failure_fatal_witness :
    runMain depsBadCsv = Except.error (MainError.polars
      (PolarsError.other "csv")) :=
  claim8_dictionary_failure_fatal depsBadCsv [0] [1] [2] [3]
    (PolarsError.other "csv") rfl rfl rfl rfl rfl

end ZtmExtract
